import Mathlib

/-!
Shallow embedding of `src/core/tools/exporter.py` and `src/core/tools/export.py`
from the dataset_manager repository: the annotation serializer
(`_export_one_sample_anno`, one copy per file), the dataset updater
(`update_dataset`, unattached and attached branches), the selection resolver
(`get_select_dv`) and the cache-guarded entry points.

Python floats (normalized bounding-box coordinates) are modelled as rationals:
the claims are about which arithmetic expression is computed, not rounding.
External collaborators that live in this repository outside the exported
source (checksum, sidecar parser, sample builder, directory listing) are
modelled as parameters of an environment record, so every theorem quantifies
over their behaviour.
-/

/-- Model of `fiftyone.core.metadata.ImageMetadata`: only the three attributes
the code reads (`height`, `width`, `num_channels`). -/
structure Metadata where
  height : Int
  width : Int
  num_channels : Int
deriving DecidableEq, Repr

/-- Model of a fiftyone `Detection`: the serializer reads `label` and the
normalized `bounding_box` (x, y, w, h); `confidence` is carried but never read
by this code (the serializer writes fixed placeholder values instead). -/
structure Detection where
  label : String
  bounding_box : ℚ × ℚ × ℚ × ℚ
  confidence : Option ℚ
deriving DecidableEq, Repr

/-- Model of a fiftyone `Detections` label: a list of detections.  A
`Detections` object defines no `__bool__`/`__len__`, so it is always truthy in
Python, even when its list is empty. -/
structure Detections where
  detections : List Detection
deriving DecidableEq, Repr

/-- Untyped value stored in a sample field. -/
inductive FieldVal where
  | str (s : String)
  | strList (l : List String)
  | dets (d : Detections)
deriving DecidableEq, Repr

/-- Python truthiness of a field value: empty strings and empty lists are
falsy; a `Detections` object is always truthy. -/
def FieldVal.truthy : FieldVal → Bool
  | .str s => !s.isEmpty
  | .strList l => !l.isEmpty
  | .dets _ => true

/-- Model of a fiftyone `Sample`: its id, filesystem path, the special
`metadata` attribute, and the remaining dynamic fields as an association
list. -/
structure Sample where
  id : String
  filepath : String
  metadata : Option Metadata
  fields : List (String × FieldVal)
deriving DecidableEq, Repr

/-- Lookup of a dynamic field on a sample (`None` when absent). -/
def Sample.getField (s : Sample) (k : String) : Option FieldVal :=
  (s.fields.find? (fun p => p.1 == k)).map Prod.snd

/-- Model of fiftyone `Sample.has_field` restricted to dynamic fields. -/
def Sample.hasField (s : Sample) (k : String) : Bool :=
  (s.getField k).isSome

/-- Set (or add) a dynamic field on a sample. -/
def Sample.setField (s : Sample) (k : String) (v : FieldVal) : Sample :=
  if (s.fields.find? (fun p => p.1 == k)).isSome then
    { s with fields := s.fields.map (fun p => if p.1 == k then (k, v) else p) }
  else
    { s with fields := s.fields ++ [(k, v)] }

/-- Model of fiftyone `Sample.clear_field` on a dynamic field. -/
def Sample.clearField (s : Sample) (k : String) : Sample :=
  { s with fields := s.fields.filter (fun p => p.1 != k) }

/-- Modelled from the spec: `get_sample_field` from `core/utils.py` (not under
`src/`), §4.1 Field Accessor: "given a sample and a field name, return the
field's value or a supplied default if the field is missing"; the default is
handled via `Option` at call sites (`None` default) or `Option.getD`. -/
def get_sample_field (sample : Sample) (field_name : String) : Option FieldVal :=
  sample.getField field_name

/-- Index of the last occurrence of a character in a character list. -/
def lastIndexOf (cs : List Char) (c : Char) : Option Nat :=
  cs.enum.foldl (fun acc p => if p.2 == c then some p.1 else acc) none

/-- Root part of Python `os.path.splitext` (posix): split off the extension at
the last dot of the last path component, unless every character of the
component before that dot is itself a dot. -/
def splitextRoot (p : String) : String :=
  let cs := p.toList
  match lastIndexOf cs '.' with
  | none => p
  | some di =>
    let fi := match lastIndexOf cs '/' with
      | none => 0
      | some si => si + 1
    if fi ≤ di then
      if (List.range di).any (fun i => decide (fi ≤ i) && cs.getD i '.' != '.') then
        String.mk (cs.take di)
      else p
    else p

/-- Python `os.path.basename` (posix): the part after the last slash. -/
def path_basename (p : String) : String :=
  let cs := p.toList
  match lastIndexOf cs '/' with
  | none => p
  | some si => String.mk (cs.drop (si + 1))

/-- Python `os.path.join` (posix) for the two-argument uses in this code. -/
def path_join (a b : String) : String :=
  if b.toList.head? = some '/' then b
  else if a.toList.isEmpty then b
  else if a.toList.getLast? = some '/' then a ++ b
  else a ++ "/" ++ b

/-- Model of fiftyone `Sample.filename`: `os.path.basename(sample.filepath)`. -/
def Sample.filename (s : Sample) : String :=
  path_basename s.filepath

/-- One entry of the serialized `objs_info` list: the dict built per detection
has exactly the keys `name`, `pose`, `truncated`, `difficult`, `mask`,
`confidence`, `quality`, `bbox`. -/
structure ObjInfo where
  name : String
  pose : String
  truncated : Int
  difficult : Int
  mask : List String
  confidence : Int
  quality : Int
  bbox : ℚ × ℚ × ℚ × ℚ
deriving DecidableEq, Repr

/-- Value stored under a key of the annotation record: either a sample field
copied through unchanged, the `img_shape` triple, or the `objs_info` list. -/
inductive JsonVal where
  | ofField (v : FieldVal)
  | shape (h w c : Int)
  | objs (l : List ObjInfo)
deriving DecidableEq, Repr

/-- An annotation-file write: the destination path and the JSON record
(association list in insertion order; `json.dump(..., sort_keys=True)` makes
the order irrelevant to the file content). -/
structure AnnoWrite where
  path : String
  record : List (String × JsonVal)
deriving DecidableEq, Repr

/-- The object record the serializer builds for one detection
(`exporter.py` lines 56-69 / `export.py` lines 55-68): fixed placeholder
values, bbox converted from (x, y, w, h) to (x, y, x+w, y+h). -/
def detToObjInfo (det : Detection) : ObjInfo :=
  { name := det.label
    pose := "Unspecified"
    truncated := 0
    difficult := 0
    mask := []
    confidence := -1
    quality := 10
    bbox := (det.bounding_box.1,
             det.bounding_box.2.1,
             det.bounding_box.1 + det.bounding_box.2.2.1,
             det.bounding_box.2.1 + det.bounding_box.2.2.2) }

/-- The `objs_info` list: `dets = get_sample_field(sample, "ground_truth")`;
`if dets:` iterates `dets.detections` when truthy.  `none` models the
`AttributeError` raised when a truthy non-`Detections` value is iterated. -/
def objsInfoOf (sample : Sample) : Option (List ObjInfo) :=
  match get_sample_field sample "ground_truth" with
  | none => some []
  | some v =>
    if v.truthy then
      match v with
      | .dets ds => some (ds.detections.map detToObjInfo)
      | _ => none
    else some []

namespace ExporterPy

/-- The `need_export_map` dict literal of `exporter.py` (lines 30-36), as an
ordered pair list (source field name, output key). -/
def need_export_map : List (String × String) :=
  [("data_source", "data_source"), ("img_quality", "img_quality"),
   ("additions", "additions"), ("tags", "sample_tags"), ("chiebot_ID", "ID")]

/-- Body of the loop `for k, v in need_export_map.items(): vv =
get_sample_field(sample, k); if vv: result[v] = vv` (`exporter.py` lines
38-41).  The dict insertion is an append: the loop starts from an empty dict
and the five target keys are pairwise distinct, so the key is always fresh. -/
def annoLoopStep (sample : Sample) (result : List (String × JsonVal))
    (kv : String × String) : List (String × JsonVal) :=
  match get_sample_field sample kv.1 with
  | some vv => if vv.truthy then result ++ [(kv.2, .ofField vv)] else result
  | none => result

/-- Embedding of `_export_one_sample_anno` from `src/core/tools/exporter.py`
(lines 28-76).  Returns the write effect (path and record), or `none` when the
Python code raises (missing metadata, ill-typed `ground_truth`).  The Python
function returns `None`. -/
def _export_one_sample_anno (sample : Sample) (save_dir : String) :
    Option AnnoWrite :=
  match sample.metadata with
  | none => none
  | some md =>
    let result5 := need_export_map.foldl (annoLoopStep sample) []
    let result6 := result5 ++
      [("chiebot_sample_tags",
        .ofField ((get_sample_field sample "chiebot_sample_tags").getD (.strList [])))]
    let result7 := result6 ++ [("img_shape", .shape md.height md.width md.num_channels)]
    match objsInfoOf sample with
    | none => none
    | some objs =>
      let result8 := result7 ++ [("objs_info", .objs objs)]
      let save_path := path_join save_dir (splitextRoot sample.filename ++ ".anno")
      some { path := save_path, record := result8 }

end ExporterPy

namespace ExportPy

/-- The `need_export_map` dict literal of `export.py` (lines 29-35). -/
def need_export_map : List (String × String) :=
  [("data_source", "data_source"), ("img_quality", "img_quality"),
   ("additions", "additions"), ("tags", "sample_tags"), ("chiebot_ID", "ID")]

/-- Body of the field-copy loop of `export.py` (lines 37-40), identical to the
loop in `exporter.py`. -/
def annoLoopStep (sample : Sample) (result : List (String × JsonVal))
    (kv : String × String) : List (String × JsonVal) :=
  match get_sample_field sample kv.1 with
  | some vv => if vv.truthy then result ++ [(kv.2, .ofField vv)] else result
  | none => result

/-- Embedding of `_export_one_sample_anno` from `src/core/tools/export.py`
(lines 27-76).  Identical construction to the `exporter.py` copy, but the
Python function additionally returns `save_path`; the second component of the
result is that return value. -/
def _export_one_sample_anno (sample : Sample) (save_dir : String) :
    Option (AnnoWrite × String) :=
  match sample.metadata with
  | none => none
  | some md =>
    let result5 := need_export_map.foldl (annoLoopStep sample) []
    let result6 := result5 ++
      [("chiebot_sample_tags",
        .ofField ((get_sample_field sample "chiebot_sample_tags").getD (.strList [])))]
    let result7 := result6 ++ [("img_shape", .shape md.height md.width md.num_channels)]
    match objsInfoOf sample with
    | none => none
    | some objs =>
      let result8 := result7 ++ [("objs_info", .objs objs)]
      let save_path := path_join save_dir (splitextRoot sample.filename ++ ".anno")
      some ({ path := save_path, record := result8 }, save_path)

end ExportPy

/-- Environment for `update_dataset`, packaging the external collaborators the
function calls.  `xml_exists` models `os.path.exists`; the rest is repository
code that is not under `src/`.

Modelled from the spec: `md5sum` (§6: "a content hash string of the sidecar
file") is an abstract function from path to hash string; `parse_sample_info`
(§6: "an external sample-field parser returning (metadata, label,
extra-fields)") returns the metadata, the `ground_truth` label and the extra
annotation fields; `generate_sgcc_sample` (§6: "an external sample builder")
builds a new sample from a media path. -/
structure UpdateEnv where
  xml_exists : String → Bool
  md5sum : String → String
  parse_sample_info : String → Metadata × Detections × List (String × FieldVal)
  generate_sgcc_sample : String → Sample

/-- State threaded through the unattached-mode loop: the dataset's (in-memory)
samples and the filepaths passed to `context.save`, in order. -/
structure UDState where
  samples : List Sample
  saved : List String
deriving DecidableEq, Repr

/-- Model of `dataset[img_path]`: the member whose filepath is the given path
(first match). -/
def findByPath (samples : List Sample) (p : String) : Option Sample :=
  samples.find? (fun s => s.filepath == p)

/-- Write back the (mutated) in-memory sample object for a path: replaces the
first member with that filepath. -/
def replaceByPath : List Sample → String → Sample → List Sample
  | [], _, _ => []
  | s :: rest, p, s' =>
    if s.filepath == p then s' :: rest else s :: replaceByPath rest p s'

/-- The reparse-and-overwrite block shared by the two modes (`exporter.py`
lines 205-212 and 226-233): `img_meta, label_info, anno_dict =
parse_sample_info(sample.filepath)`; `sample.update_fields(anno_dict)`;
`sample.update_fields({"metadata": img_meta, "ground_truth": label_info,
"xml_md5": xml_md5})`. -/
def reparseSample (env : UpdateEnv) (sample : Sample) (xml_md5 : String) : Sample :=
  let pi := env.parse_sample_info sample.filepath
  let s1 := pi.2.2.foldl (fun a kv => a.setField kv.1 kv.2) sample
  let s2 := { s1 with metadata := some pi.1 }
  let s3 := s2.setField "ground_truth" (.dets pi.2.1)
  s3.setField "xml_md5" (.str xml_md5)

/-- The sidecar path of a sample: `os.path.splitext(sample.filepath)[0] +
".xml"` (`exporter.py` lines 198 and 219). -/
def xmlPathOf (sample : Sample) : String :=
  splitextRoot sample.filepath ++ ".xml"

/-- One iteration of the unattached-mode loop of `update_dataset`
(`exporter.py` lines 196-215) for one media path.  Membership and indexing are
by filepath; a missing sidecar clears `ground_truth` on the in-memory sample
and `continue`s (no `context.save`); otherwise the checksum rule runs and
`context.save(sample)` executes only inside the `has_field("xml_md5")` branch;
a non-member path is added via `generate_sgcc_sample`. -/
def update_one_img (env : UpdateEnv) (st : UDState) (img_path : String) : UDState :=
  match findByPath st.samples img_path with
  | some sample =>
    let xml_path := xmlPathOf sample
    if !env.xml_exists xml_path then
      { st with samples :=
          replaceByPath st.samples img_path (sample.clearField "ground_truth") }
    else
      let xml_md5 := env.md5sum xml_path
      if sample.hasField "xml_md5" then
        let sample' :=
          if sample.getField "xml_md5" != some (.str xml_md5) then
            reparseSample env sample xml_md5
          else sample
        { samples := replaceByPath st.samples img_path sample'
          saved := st.saved ++ [img_path] }
      else st
  | none =>
    { st with samples := st.samples ++ [env.generate_sgcc_sample img_path] }

/-- The unattached-mode branch of `update_dataset` (`exporter.py` lines
183-216): fold the per-image step over the media files found under the
dataset's directory (`imgs_path`, the result of `get_all_file_path`). -/
def update_dataset_unattached (env : UpdateEnv) (imgs_path : List String)
    (samples : List Sample) : UDState :=
  imgs_path.foldl (update_one_img env) { samples := samples, saved := [] }

/-- One iteration of the attached-mode loop of `update_dataset` (`exporter.py`
lines 218-233): same checksum rule, no additions; `iter_samples(...,
autosave=True)` persists the (possibly mutated) sample. -/
def update_one_sample_attached (env : UpdateEnv) (sample : Sample) : Sample :=
  let xml_path := xmlPathOf sample
  if !env.xml_exists xml_path then
    sample.clearField "ground_truth"
  else
    let xml_md5 := env.md5sum xml_path
    if sample.hasField "xml_md5" then
      if sample.getField "xml_md5" != some (.str xml_md5) then
        reparseSample env sample xml_md5
      else sample
    else sample

/-- The attached-mode branch of `update_dataset`: every sample of the passed
view is visited in place; no sample is ever added. -/
def update_dataset_attached (env : UpdateEnv) (samples : List Sample) :
    List Sample :=
  samples.map (update_one_sample_attached env)

/-- Model of a fiftyone `Session` as used here: `session.selected` is a list
of sample ids; the object itself is always truthy. -/
structure Session where
  selected : List String
deriving DecidableEq, Repr

/-- Modelled from the spec: the process-wide `WEAK_CACHE` from `core/cache.py`
(not under `src/`), §3 Weak Cache: a key/value store read with
`WEAK_CACHE.get("dataset", None)` and `WEAK_CACHE.get("session", None)`. -/
structure WeakCache where
  dataset : Option (List Sample)
  session : Option Session

/-- Outcome of `update_dataset` (`exporter.py` lines 166-236): a logged
warning with no effect, or the final state of the branch that ran. -/
inductive UpdateOutcome where
  | warned
  | unattached (st : UDState)
  | attached (samples : List Sample)
deriving DecidableEq, Repr

/-- Embedding of `update_dataset` (`exporter.py` lines 166-236).  With no
dataset argument it falls back to the cached dataset; if the cache has none it
logs a warning and returns (`warned`).  `imgs_path` stands for
`get_all_file_path(dataset_dir, filter_=...)`, the filtered listing of the
dataset's directory. -/
def update_dataset (dataset : Option (List Sample)) (cache : WeakCache)
    (env : UpdateEnv) (imgs_path : List String) : UpdateOutcome :=
  match dataset with
  | none =>
    match cache.dataset with
    | none => .warned
    | some d => .unattached (update_dataset_unattached env imgs_path d)
  | some d => .attached (update_dataset_attached env d)

/-- Embedding of `export_anno_file` (`exporter.py` lines 79-108): with no
dataset argument and nothing cached, a warning is logged and nothing is
exported (`none`); otherwise one annotation write per sample (the
thread-pool's completion order does not affect the set of writes). -/
def export_anno_file (save_dir : String) (dataset : Option (List Sample))
    (cache : WeakCache) : Option (List (Option AnnoWrite)) :=
  match dataset with
  | none =>
    match cache.dataset with
    | none => none
    | some d => some (d.map (fun s => ExporterPy._export_one_sample_anno s save_dir))
  | some d => some (d.map (fun s => ExporterPy._export_one_sample_anno s save_dir))

/-- Effect of `_export_one_sample` (`exporter.py` lines 111-124) for one
sample: the image path and label handed to the injected exporter, plus the
annotation write when `get_anno`; `none` models the `KeyError` when
`sample["ground_truth"]` is absent or a failure inside the serializer. -/
def _export_one_sample (sample : Sample) (get_anno : Bool) (save_dir : String) :
    Option (String × FieldVal × Option AnnoWrite) :=
  match sample.getField "ground_truth" with
  | none => none
  | some label =>
    if get_anno then
      match ExporterPy._export_one_sample_anno sample save_dir with
      | none => none
      | some w => some (sample.filepath, label, some w)
    else
      some (sample.filepath, label, none)

/-- Embedding of `export_sample` (`exporter.py` lines 127-163): the same
cache-or-argument guard as `export_anno_file`; when it runs, one export effect
per sample. -/
def export_sample (save_dir : String) (dataset : Option (List Sample))
    (cache : WeakCache) (get_anno : Bool) :
    Option (List (Option (String × FieldVal × Option AnnoWrite))) :=
  match dataset with
  | none =>
    match cache.dataset with
    | none => none
    | some d => some (d.map (fun s => _export_one_sample s get_anno save_dir))
  | some d => some (d.map (fun s => _export_one_sample s get_anno save_dir))

/-- Environment for `get_select_dv`: `txt_exists` models `os.path.exists` on
the path-list file.

Modelled from the spec: `get_all_file_path` from `core/utils.py` (not under
`src/`), §6 Path-list text file: reads one file path per line from the given
text file. -/
structure SelectEnv where
  txt_exists : String → Bool
  get_all_file_path : String → List String

/-- Embedding of `get_select_dv` (`exporter.py` lines 239-257).  The guard is
`if dataset and session:` — Python truthiness: a fiftyone dataset defines
`__len__`, so an empty cached dataset is falsy; a session object is truthy
whenever present.  With a txt path that exists, `select_by("filepath", ...)`;
with no txt path, `select(session.selected)`; every other path returns
`None`. -/
def get_select_dv (txt_path : Option String) (cache : WeakCache)
    (env : SelectEnv) : Option (List Sample) :=
  match cache.dataset, cache.session with
  | some d, some sess =>
    if !d.isEmpty then
      match txt_path with
      | some t =>
        if env.txt_exists t then
          some (d.filter (fun s => (env.get_all_file_path t).contains s.filepath))
        else none
      | none => some (d.filter (fun s => sess.selected.contains s.id))
    else none
  | _, _ => none

/-! ### Helper definitions and structural lemmas -/

/-- The entries the field-copy loop contributes for one (source, target) pair:
a singleton when the source field is present and truthy, nothing otherwise. -/
def optEntry (sample : Sample) (src dst : String) : List (String × JsonVal) :=
  match get_sample_field sample src with
  | some vv => if vv.truthy then [(dst, .ofField vv)] else []
  | none => []

/-- Whether a sample field is present with a truthy value (`if vv:` on the
result of `get_sample_field` with default `None`). -/
def field_truthy (s : Sample) (k : String) : Bool :=
  ((get_sample_field s k).map FieldVal.truthy).getD false

theorem annoLoopStep_eq (sample : Sample) (result : List (String × JsonVal))
    (kv : String × String) :
    ExporterPy.annoLoopStep sample result kv = result ++ optEntry sample kv.1 kv.2 := by
  unfold ExporterPy.annoLoopStep optEntry
  cases get_sample_field sample kv.1 with
  | none => simp
  | some vv => by_cases h : vv.truthy <;> simp [h]

/-- The five optional entries of the annotation record, in loop order. -/
def optEntries (sample : Sample) : List (String × JsonVal) :=
  optEntry sample "data_source" "data_source" ++
  optEntry sample "img_quality" "img_quality" ++
  optEntry sample "additions" "additions" ++
  optEntry sample "tags" "sample_tags" ++
  optEntry sample "chiebot_ID" "ID"

theorem exporter_loop_eq (sample : Sample) :
    ExporterPy.need_export_map.foldl (ExporterPy.annoLoopStep sample) [] =
      optEntries sample := by
  simp [ExporterPy.need_export_map, optEntries, annoLoopStep_eq, List.append_assoc]

theorem exportPy_loop_defs_eq :
    ExportPy.annoLoopStep = ExporterPy.annoLoopStep ∧
    ExportPy.need_export_map = ExporterPy.need_export_map :=
  ⟨rfl, rfl⟩

/-- Shape of a successful annotation export (`exporter.py` copy): the record
is the optional entries followed by the three unconditional entries. -/
theorem exporter_anno_some (sample : Sample) (save_dir : String) (md : Metadata)
    (objs : List ObjInfo) (hmd : sample.metadata = some md)
    (hobjs : objsInfoOf sample = some objs) :
    ExporterPy._export_one_sample_anno sample save_dir =
      some { path := path_join save_dir (splitextRoot sample.filename ++ ".anno")
             record := optEntries sample ++
               [("chiebot_sample_tags",
                 .ofField ((get_sample_field sample "chiebot_sample_tags").getD (.strList []))),
                ("img_shape", .shape md.height md.width md.num_channels),
                ("objs_info", .objs objs)] } := by
  unfold ExporterPy._export_one_sample_anno
  rw [hmd, hobjs, exporter_loop_eq]
  simp [List.append_assoc]

theorem mem_keys_optEntry (sample : Sample) (src dst k : String) :
    k ∈ (optEntry sample src dst).map Prod.fst ↔
      (k = dst ∧ field_truthy sample src = true) := by
  unfold optEntry field_truthy
  cases h : get_sample_field sample src with
  | none => simp
  | some vv => by_cases ht : vv.truthy <;> simp [ht]

theorem lookup_append_of_not_mem_keys (l1 l2 : List (String × JsonVal))
    (k : String) (h : k ∉ l1.map Prod.fst) :
    (l1 ++ l2).lookup k = l2.lookup k := by
  induction l1 with
  | nil => rfl
  | cons a t ih =>
    simp only [List.map_cons, List.mem_cons, not_or] at h
    simp only [List.cons_append, List.lookup]
    have : (k == a.1) = false := by
      exact beq_false_of_ne h.1
    rw [this]
    exact ih h.2

theorem objsInfoOf_dets (sample : Sample) (ds : Detections)
    (hgt : get_sample_field sample "ground_truth" = some (.dets ds)) :
    objsInfoOf sample = some (ds.detections.map detToObjInfo) := by
  unfold objsInfoOf
  rw [hgt]
  rfl

theorem replaceByPath_self (l : List Sample) (p : String) (s : Sample)
    (h : findByPath l p = some s) : replaceByPath l p s = l := by
  induction l with
  | nil => simp [findByPath] at h
  | cons a t ih =>
    cases hb : (a.filepath == p) with
    | true =>
      have ha : a = s := by simpa [findByPath, List.find?, hb] using h
      subst ha
      simp [replaceByPath, hb]
    | false =>
      have ht : findByPath t p = some s := by
        simpa [findByPath, List.find?, hb] using h
      simp [replaceByPath, hb, ih ht]

theorem not_pair_mem_optEntry (sample : Sample) (src dst k : String) (x : JsonVal)
    (h : k ≠ dst) : (k, x) ∉ optEntry sample src dst := by
  unfold optEntry
  cases get_sample_field sample src with
  | none => simp
  | some vv => by_cases ht : vv.truthy <;> simp [ht, h]

theorem not_mem_keys_optEntries (sample : Sample) (k : String)
    (h1 : k ≠ "data_source") (h2 : k ≠ "img_quality") (h3 : k ≠ "additions")
    (h4 : k ≠ "sample_tags") (h5 : k ≠ "ID") :
    k ∉ (optEntries sample).map Prod.fst := by
  simp only [optEntries, List.map_append, List.mem_append, not_or]
  refine ⟨⟨⟨⟨?_, ?_⟩, ?_⟩, ?_⟩, ?_⟩ <;>
    · intro hmem
      obtain ⟨⟨k', x⟩, hx, hk⟩ := List.mem_map.mp hmem
      cases hk
      first
      | exact not_pair_mem_optEntry sample _ _ _ _ h1 hx
      | exact not_pair_mem_optEntry sample _ _ _ _ h2 hx
      | exact not_pair_mem_optEntry sample _ _ _ _ h3 hx
      | exact not_pair_mem_optEntry sample _ _ _ _ h4 hx
      | exact not_pair_mem_optEntry sample _ _ _ _ h5 hx

/-! ### Claim theorems -/

/-- Claim C2: for every sample with a detection list of length k on
`ground_truth`, the serializer writes an `objs_info` list with exactly k
entries; each entry's `bbox` is (x, y, x+w, y+h) from the detection's
(x, y, w, h) box, and `pose`, `truncated`, `difficult`, `mask`, `confidence`,
`quality` are the fixed values "Unspecified", 0, 0, [], -1, 10 regardless of
the detection's own values (its `confidence` is ignored). -/
theorem C2_objs_info (sample : Sample) (save_dir : String) (md : Metadata)
    (ds : Detections) (hmd : sample.metadata = some md)
    (hgt : get_sample_field sample "ground_truth" = some (.dets ds)) :
    ∃ w, ExporterPy._export_one_sample_anno sample save_dir = some w ∧
      w.record.lookup "objs_info" = some (.objs (ds.detections.map detToObjInfo)) ∧
      (ds.detections.map detToObjInfo).length = ds.detections.length ∧
      ∀ det : Detection, detToObjInfo det =
        { name := det.label
          pose := "Unspecified"
          truncated := 0
          difficult := 0
          mask := []
          confidence := -1
          quality := 10
          bbox := (det.bounding_box.1, det.bounding_box.2.1,
                   det.bounding_box.1 + det.bounding_box.2.2.1,
                   det.bounding_box.2.1 + det.bounding_box.2.2.2) } := by
  have hobjs := objsInfoOf_dets sample ds hgt
  refine ⟨_, exporter_anno_some sample save_dir md _ hmd hobjs, ?_,
    List.length_map _ _, fun det => rfl⟩
  rw [lookup_append_of_not_mem_keys]
  · rfl
  · exact not_mem_keys_optEntries sample "objs_info"
      (by decide) (by decide) (by decide) (by decide) (by decide)

/-- Concrete sample for the C2 witness: two detections on `ground_truth`. -/
def c2Sample : Sample :=
  { id := "i2", filepath := "/d/y.jpg", metadata := some ⟨4, 5, 3⟩,
    fields := [("ground_truth",
      .dets ⟨[⟨"cat", (0, 0, 1, 1), none⟩, ⟨"dog", (0, 1, 1, 2), some 1⟩]⟩)] }

theorem C2_objs_info_witness :
    ∃ w, ExporterPy._export_one_sample_anno c2Sample "/out" = some w ∧
      w.record.lookup "objs_info" =
        some (.objs ((Detections.mk
          [⟨"cat", (0, 0, 1, 1), none⟩,
           ⟨"dog", (0, 1, 1, 2), some 1⟩]).detections.map detToObjInfo)) ∧
      ((Detections.mk [⟨"cat", (0, 0, 1, 1), none⟩,
          ⟨"dog", (0, 1, 1, 2), some 1⟩]).detections.map detToObjInfo).length =
        (Detections.mk [⟨"cat", (0, 0, 1, 1), none⟩,
          ⟨"dog", (0, 1, 1, 2), some 1⟩]).detections.length ∧
      ∀ det : Detection, detToObjInfo det =
        { name := det.label
          pose := "Unspecified"
          truncated := 0
          difficult := 0
          mask := []
          confidence := -1
          quality := 10
          bbox := (det.bounding_box.1, det.bounding_box.2.1,
                   det.bounding_box.1 + det.bounding_box.2.2.1,
                   det.bounding_box.2.1 + det.bounding_box.2.2.2) } :=
  C2_objs_info c2Sample "/out" ⟨4, 5, 3⟩
    ⟨[⟨"cat", (0, 0, 1, 1), none⟩, ⟨"dog", (0, 1, 1, 2), some 1⟩]⟩ rfl rfl

theorem pair_mem_optEntry_iff (sample : Sample) (src dst k : String) :
    (∃ x, (k, x) ∈ optEntry sample src dst) ↔
      (k = dst ∧ field_truthy sample src = true) := by
  unfold optEntry field_truthy
  cases h : get_sample_field sample src with
  | none => simp
  | some vv => by_cases ht : vv.truthy <;> simp [ht]

/-- Claim C7: for every sample and every optional field among data source,
image quality, additions, sample tags (source field `tags`) and external ID
(source field `chiebot_ID`), the output key appears in the written annotation
record if and only if the source field is present on the sample with a truthy
value; a missing or falsy field contributes no key at all. -/
theorem C7_optional_fields (sample : Sample) (save_dir : String) (md : Metadata)
    (objs : List ObjInfo) (hmd : sample.metadata = some md)
    (hobjs : objsInfoOf sample = some objs) :
    ∃ w, ExporterPy._export_one_sample_anno sample save_dir = some w ∧
      (("data_source" ∈ w.record.map Prod.fst) ↔ field_truthy sample "data_source" = true) ∧
      (("img_quality" ∈ w.record.map Prod.fst) ↔ field_truthy sample "img_quality" = true) ∧
      (("additions" ∈ w.record.map Prod.fst) ↔ field_truthy sample "additions" = true) ∧
      (("sample_tags" ∈ w.record.map Prod.fst) ↔ field_truthy sample "tags" = true) ∧
      (("ID" ∈ w.record.map Prod.fst) ↔ field_truthy sample "chiebot_ID" = true) := by
  refine ⟨_, exporter_anno_some sample save_dir md objs hmd hobjs, ?_, ?_, ?_, ?_, ?_⟩ <;>
    simp [optEntries, List.map_append, List.mem_append, pair_mem_optEntry_iff]

/-- Concrete sample for the C7 witness: `data_source` truthy, `additions`
present but falsy (empty string), `tags` truthy, `img_quality` and
`chiebot_ID` absent, no detections. -/
def c7Sample : Sample :=
  { id := "i7", filepath := "/d/z.jpg", metadata := some ⟨10, 20, 3⟩,
    fields := [("data_source", .str "web"), ("additions", .str ""),
               ("tags", .strList ["train"])] }

theorem C7_optional_fields_witness :
    ∃ w, ExporterPy._export_one_sample_anno c7Sample "/out" = some w ∧
      (("data_source" ∈ w.record.map Prod.fst) ↔ field_truthy c7Sample "data_source" = true) ∧
      (("img_quality" ∈ w.record.map Prod.fst) ↔ field_truthy c7Sample "img_quality" = true) ∧
      (("additions" ∈ w.record.map Prod.fst) ↔ field_truthy c7Sample "additions" = true) ∧
      (("sample_tags" ∈ w.record.map Prod.fst) ↔ field_truthy c7Sample "tags" = true) ∧
      (("ID" ∈ w.record.map Prod.fst) ↔ field_truthy c7Sample "chiebot_ID" = true) :=
  C7_optional_fields c7Sample "/out" ⟨10, 20, 3⟩ [] rfl rfl

/-- Claim C10: for every sample and destination directory, the
`_export_one_sample_anno` of `export.py` and the one of `exporter.py` write
the identical record to the identical path; they differ only in that the
`export.py` copy additionally returns the written path (the `exporter.py`
copy returns `None`). -/
theorem C10_copies_agree (sample : Sample) (save_dir : String) :
    ExportPy._export_one_sample_anno sample save_dir =
      (ExporterPy._export_one_sample_anno sample save_dir).map (fun w => (w, w.path)) := by
  unfold ExportPy._export_one_sample_anno ExporterPy._export_one_sample_anno
  cases sample.metadata with
  | none => rfl
  | some md =>
    cases h : objsInfoOf sample with
    | none => simp [h]
    | some objs =>
      simp only [h]
      rw [exportPy_loop_defs_eq.1, exportPy_loop_defs_eq.2]
      rfl

/-- Claim C4: for every dataset member whose sidecar XML label file does not
exist, the updater (attached and unattached modes) clears the sample's
`ground_truth` field and moves on; no checksum is computed (the result is
independent of the checksum/parser/builder collaborators) and the cached
`xml_md5` field plays no role (the sample is universally quantified). -/
theorem C4_missing_sidecar (env : UpdateEnv) (sample : Sample)
    (hxml : env.xml_exists (xmlPathOf sample) = false) :
    update_one_sample_attached env sample = sample.clearField "ground_truth" ∧
    (∀ st img_path, findByPath st.samples img_path = some sample →
      update_one_img env st img_path =
        { st with samples :=
            replaceByPath st.samples img_path (sample.clearField "ground_truth") }) ∧
    (∀ env' : UpdateEnv, env'.xml_exists = env.xml_exists →
      update_one_sample_attached env' sample = update_one_sample_attached env sample) := by
  refine ⟨?_, ?_, ?_⟩
  · unfold update_one_sample_attached
    simp [hxml]
  · intro st img_path hfind
    unfold update_one_img
    rw [hfind]
    simp [hxml]
  · intro env' henv
    unfold update_one_sample_attached
    simp [henv, hxml]

/-- Concrete inputs for the C4 witness: the member has both a `ground_truth`
and a stale `xml_md5` field; its sidecar does not exist. -/
def c4Env : UpdateEnv :=
  { xml_exists := fun _ => false, md5sum := fun _ => "h",
    parse_sample_info := fun _ => (⟨1, 2, 3⟩, ⟨[]⟩, []),
    generate_sgcc_sample := fun p => ⟨p, p, none, []⟩ }

def c4Sample : Sample :=
  { id := "i4", filepath := "/d/a.jpg", metadata := none,
    fields := [("ground_truth", .dets ⟨[]⟩), ("xml_md5", .str "stale")] }

theorem C4_missing_sidecar_witness :
    update_one_sample_attached c4Env c4Sample = c4Sample.clearField "ground_truth" ∧
    (∀ st img_path, findByPath st.samples img_path = some c4Sample →
      update_one_img c4Env st img_path =
        { st with samples :=
            replaceByPath st.samples img_path (c4Sample.clearField "ground_truth") }) ∧
    (∀ env' : UpdateEnv, env'.xml_exists = c4Env.xml_exists →
      update_one_sample_attached env' c4Sample =
        update_one_sample_attached c4Env c4Sample) :=
  C4_missing_sidecar c4Env c4Sample rfl

/-- Claim C5: for every member whose sidecar exists and whose cached `xml_md5`
equals the freshly computed checksum, the updater leaves the sample (label,
metadata and extra fields) unmodified in both modes — re-running the updater
is idempotent on unchanged members. -/
theorem C5_unchanged_checksum (env : UpdateEnv) (sample : Sample)
    (hxml : env.xml_exists (xmlPathOf sample) = true)
    (hmd5 : sample.getField "xml_md5" = some (.str (env.md5sum (xmlPathOf sample)))) :
    update_one_sample_attached env sample = sample ∧
    (∀ st img_path, findByPath st.samples img_path = some sample →
      (update_one_img env st img_path).samples = st.samples) := by
  have hhas : sample.hasField "xml_md5" = true := by
    simp [Sample.hasField, hmd5]
  constructor
  · unfold update_one_sample_attached
    simp [hxml, hhas, hmd5]
  · intro st img_path hfind
    unfold update_one_img
    rw [hfind]
    simp [hxml, hhas, hmd5, replaceByPath_self st.samples img_path sample hfind]

/-- Concrete inputs for the C5 witness: the cached checksum equals the fresh
one. -/
def c5Env : UpdateEnv :=
  { xml_exists := fun _ => true, md5sum := fun _ => "h5",
    parse_sample_info := fun _ => (⟨1, 2, 3⟩, ⟨[]⟩, []),
    generate_sgcc_sample := fun p => ⟨p, p, none, []⟩ }

def c5Sample : Sample :=
  { id := "i5", filepath := "/d/b.jpg", metadata := none,
    fields := [("ground_truth", .dets ⟨[]⟩), ("xml_md5", .str "h5")] }

theorem C5_unchanged_checksum_witness :
    update_one_sample_attached c5Env c5Sample = c5Sample ∧
    (∀ st img_path, findByPath st.samples img_path = some c5Sample →
      (update_one_img c5Env st img_path).samples = st.samples) :=
  C5_unchanged_checksum c5Env c5Sample rfl rfl

/-- Claim C1 as stated by the spec: whenever the sidecar exists and the cached
checksum field is ABSENT OR differs from the fresh value, the updater (both
modes) reparses the sidecar and overwrites the sample's fields.  (The absent
case is expressed by `getField ≠ some (fresh)`, which holds in particular when
the field is missing.) -/
def C1_claim_prop : Prop :=
  ∀ (env : UpdateEnv) (sample : Sample),
    env.xml_exists (xmlPathOf sample) = true →
    sample.getField "xml_md5" ≠ some (.str (env.md5sum (xmlPathOf sample))) →
    update_one_sample_attached env sample =
      reparseSample env sample (env.md5sum (xmlPathOf sample)) ∧
    ∀ st img_path, findByPath st.samples img_path = some sample →
      (update_one_img env st img_path).samples =
        replaceByPath st.samples img_path
          (reparseSample env sample (env.md5sum (xmlPathOf sample)))

/-- Concrete inputs refuting C1: the sidecar exists, the `xml_md5` field is
absent, and the parser would produce visibly different fields. -/
def c1Env : UpdateEnv :=
  { xml_exists := fun _ => true, md5sum := fun _ => "h1",
    parse_sample_info := fun _ => (⟨1, 2, 3⟩, ⟨[]⟩, []),
    generate_sgcc_sample := fun p => ⟨p, p, none, []⟩ }

def c1Sample : Sample :=
  { id := "i1", filepath := "/d/x.jpg", metadata := none, fields := [] }

/-- Claim C1 is false on the code: with an absent `xml_md5` field the code
skips the reparse entirely (`if sample.has_field("xml_md5")` guards the whole
checksum-diff block), leaving the sample unchanged. -/
theorem C1_counterexample : ¬ C1_claim_prop := by
  intro h
  have h2 := (h c1Env c1Sample rfl (by decide)).1
  exact absurd h2 (by decide)

/-- Claim C1 amended: the updater computes the checksum when the sidecar
exists, and reparses and overwrites only if the cached `xml_md5` field is
PRESENT and differs from the fresh value; when the field is absent the sample
is left completely unchanged (and, in unattached mode, not saved). -/
theorem C1_amended_checksum_rule (env : UpdateEnv) (sample : Sample)
    (hxml : env.xml_exists (xmlPathOf sample) = true) :
    (sample.hasField "xml_md5" = true →
      sample.getField "xml_md5" ≠ some (.str (env.md5sum (xmlPathOf sample))) →
      update_one_sample_attached env sample =
        reparseSample env sample (env.md5sum (xmlPathOf sample))) ∧
    (sample.hasField "xml_md5" = false →
      update_one_sample_attached env sample = sample) ∧
    (∀ st img_path, findByPath st.samples img_path = some sample →
      (sample.hasField "xml_md5" = true →
        sample.getField "xml_md5" ≠ some (.str (env.md5sum (xmlPathOf sample))) →
        (update_one_img env st img_path).samples =
          replaceByPath st.samples img_path
            (reparseSample env sample (env.md5sum (xmlPathOf sample)))) ∧
      (sample.hasField "xml_md5" = false →
        update_one_img env st img_path = st)) := by
  refine ⟨?_, ?_, ?_⟩
  · intro hhas hne
    unfold update_one_sample_attached
    simp [hxml, hhas, hne]
  · intro hhas
    unfold update_one_sample_attached
    simp [hxml, hhas]
  · intro st img_path hfind
    constructor
    · intro hhas hne
      unfold update_one_img
      rw [hfind]
      simp [hxml, hhas, hne]
    · intro hhas
      unfold update_one_img
      rw [hfind]
      simp [hxml, hhas]

/-- Concrete inputs for the C1 witness: present-and-different checksum on one
hand (reparse), absent checksum field on the other (no-op). -/
def c1wSample : Sample :=
  { id := "i1w", filepath := "/d/w.jpg", metadata := none,
    fields := [("xml_md5", .str "old")] }

theorem C1_amended_checksum_rule_witness :
    (c1wSample.hasField "xml_md5" = true →
      c1wSample.getField "xml_md5" ≠ some (.str (c1Env.md5sum (xmlPathOf c1wSample))) →
      update_one_sample_attached c1Env c1wSample =
        reparseSample c1Env c1wSample (c1Env.md5sum (xmlPathOf c1wSample))) ∧
    (c1wSample.hasField "xml_md5" = false →
      update_one_sample_attached c1Env c1wSample = c1wSample) ∧
    (∀ st img_path, findByPath st.samples img_path = some c1wSample →
      (c1wSample.hasField "xml_md5" = true →
        c1wSample.getField "xml_md5" ≠ some (.str (c1Env.md5sum (xmlPathOf c1wSample))) →
        (update_one_img c1Env st img_path).samples =
          replaceByPath st.samples img_path
            (reparseSample c1Env c1wSample (c1Env.md5sum (xmlPathOf c1wSample)))) ∧
      (c1wSample.hasField "xml_md5" = false →
        update_one_img c1Env st img_path = st)) :=
  C1_amended_checksum_rule c1Env c1wSample rfl

/-- Claim C3 as stated by the spec: in unattached mode, every media file that
is already a member is saved through the batch-save context at the end of its
iteration. -/
def C3_claim_prop : Prop :=
  ∀ (env : UpdateEnv) (st : UDState) (img_path : String) (sample : Sample),
    findByPath st.samples img_path = some sample →
    (update_one_img env st img_path).saved = st.saved ++ [img_path]

/-- Concrete inputs refuting C3: a member whose sidecar does not exist is
`continue`d past before `context.save` runs. -/
def c3Env : UpdateEnv :=
  { xml_exists := fun _ => false, md5sum := fun _ => "h",
    parse_sample_info := fun _ => (⟨1, 2, 3⟩, ⟨[]⟩, []),
    generate_sgcc_sample := fun p => ⟨p, p, none, []⟩ }

def c3Sample : Sample :=
  { id := "i3", filepath := "/d/c.jpg", metadata := none,
    fields := [("ground_truth", .dets ⟨[]⟩), ("xml_md5", .str "h")] }

/-- Claim C3 is false on the code: a visited member whose sidecar is missing
(and likewise one lacking the `xml_md5` field) is never passed to
`context.save`. -/
theorem C3_counterexample : ¬ C3_claim_prop := by
  intro h
  have h2 := h c3Env ⟨[c3Sample], []⟩ "/d/c.jpg" c3Sample (by decide)
  exact absurd h2 (by decide)

/-- Claim C3 amended: in unattached mode a visited member is saved at the end
of its iteration — whether or not its fields changed — exactly when its
sidecar exists and it already has a cached `xml_md5` field; a member with a
missing sidecar or without the checksum field is not saved. -/
theorem C3_amended_save_rule (env : UpdateEnv) (st : UDState) (img_path : String)
    (sample : Sample) (hfind : findByPath st.samples img_path = some sample) :
    (env.xml_exists (xmlPathOf sample) = true → sample.hasField "xml_md5" = true →
      (update_one_img env st img_path).saved = st.saved ++ [img_path]) ∧
    (env.xml_exists (xmlPathOf sample) = false →
      (update_one_img env st img_path).saved = st.saved) ∧
    (sample.hasField "xml_md5" = false →
      (update_one_img env st img_path).saved = st.saved) := by
  refine ⟨?_, ?_, ?_⟩
  · intro hxml hhas
    unfold update_one_img
    rw [hfind]
    simp [hxml, hhas]
  · intro hxml
    unfold update_one_img
    rw [hfind]
    simp [hxml]
  · intro hhas
    unfold update_one_img
    rw [hfind]
    by_cases hxml : env.xml_exists (xmlPathOf sample) <;> simp [hxml, hhas]

theorem C3_amended_save_rule_witness :
    (c5Env.xml_exists (xmlPathOf c5Sample) = true → c5Sample.hasField "xml_md5" = true →
      (update_one_img c5Env ⟨[c5Sample], []⟩ "/d/b.jpg").saved = [] ++ ["/d/b.jpg"]) ∧
    (c5Env.xml_exists (xmlPathOf c5Sample) = false →
      (update_one_img c5Env ⟨[c5Sample], []⟩ "/d/b.jpg").saved = []) ∧
    (c5Sample.hasField "xml_md5" = false →
      (update_one_img c5Env ⟨[c5Sample], []⟩ "/d/b.jpg").saved = []) :=
  C3_amended_save_rule c5Env ⟨[c5Sample], []⟩ "/d/b.jpg" c5Sample (by decide)

/-- Claim C6: in unattached mode a media path that is not yet a member gets
exactly one new sample appended, built by `generate_sgcc_sample` (and nothing
is saved through the context for it); in attached mode no sample is ever
added — the view is mapped in place, preserving its length. -/
theorem C6_new_files (env : UpdateEnv) :
    (∀ st img_path, findByPath st.samples img_path = none →
      (update_one_img env st img_path).samples =
        st.samples ++ [env.generate_sgcc_sample img_path] ∧
      (update_one_img env st img_path).saved = st.saved) ∧
    (∀ samples : List Sample,
      update_dataset_attached env samples =
        samples.map (update_one_sample_attached env) ∧
      (update_dataset_attached env samples).length = samples.length) := by
  constructor
  · intro st img_path hfind
    unfold update_one_img
    rw [hfind]
    exact ⟨rfl, rfl⟩
  · intro samples
    exact ⟨rfl, List.length_map _ _⟩

theorem C6_new_files_witness :
    ((update_one_img c4Env ⟨[], []⟩ "/d/new.jpg").samples =
        [] ++ [c4Env.generate_sgcc_sample "/d/new.jpg"] ∧
      (update_one_img c4Env ⟨[], []⟩ "/d/new.jpg").saved = []) ∧
    (update_dataset_attached c4Env [c4Sample] =
        [c4Sample].map (update_one_sample_attached c4Env) ∧
      (update_dataset_attached c4Env [c4Sample]).length = [c4Sample].length) :=
  ⟨(C6_new_files c4Env).1 ⟨[], []⟩ "/d/new.jpg" (by decide),
   (C6_new_files c4Env).2 [c4Sample]⟩

/-- Claim C8: with no dataset argument and no dataset in the process-wide
cache, `export_anno_file`, `export_sample` and `update_dataset` log a warning
and return with no effect, and `get_select_dv` returns nothing. -/
theorem C8_no_cached_dataset_noop (cache : WeakCache) (h : cache.dataset = none)
    (save_dir : String) (env : UpdateEnv) (imgs_path : List String)
    (get_anno : Bool) (txt_path : Option String) (senv : SelectEnv) :
    update_dataset none cache env imgs_path = .warned ∧
    export_anno_file save_dir none cache = none ∧
    export_sample save_dir none cache get_anno = none ∧
    get_select_dv txt_path cache senv = none := by
  unfold update_dataset export_anno_file export_sample get_select_dv
  rw [h]
  cases cache.session <;> simp

/-- Concrete cache for the C8 witness: no dataset, but a session is present. -/
def c8Cache : WeakCache :=
  { dataset := none, session := some ⟨["id0"]⟩ }

theorem C8_no_cached_dataset_noop_witness :
    update_dataset none c8Cache c4Env [] = .warned ∧
    export_anno_file "/out" none c8Cache = none ∧
    export_sample "/out" none c8Cache true = none ∧
    get_select_dv none c8Cache ⟨fun _ => true, fun _ => []⟩ = none :=
  C8_no_cached_dataset_noop c8Cache rfl "/out" c4Env [] true none
    ⟨fun _ => true, fun _ => []⟩

/-- Claim C9: `get_select_dv` also returns `None` when the cached dataset is
EMPTY (the guard `if dataset and session:` tests the dataset's truthiness via
`__len__`, so an empty cached dataset behaves like a missing one even with a
cached session), and when the supplied path-list file does not exist on disk
(no fallback to the session's selected subset). -/
theorem C9_select_dv_extra_none_cases :
    (∀ (cache : WeakCache) (senv : SelectEnv) (txt_path : Option String),
      cache.dataset = some [] → get_select_dv txt_path cache senv = none) ∧
    (∀ (cache : WeakCache) (senv : SelectEnv) (t : String) (d : List Sample)
      (sess : Session), cache.dataset = some d → cache.session = some sess →
      senv.txt_exists t = false → get_select_dv (some t) cache senv = none) := by
  constructor
  · intro cache senv txt_path h
    unfold get_select_dv
    rw [h]
    cases cache.session <;> simp
  · intro cache senv t d sess hd hs hex
    unfold get_select_dv
    rw [hd, hs]
    by_cases he : d.isEmpty <;> simp [he, hex]

/-- Concrete cache for the C9 witness: an empty dataset with a live session,
and a nonempty dataset with a missing path-list file. -/
def c9CacheEmpty : WeakCache :=
  { dataset := some [], session := some ⟨["id0"]⟩ }

def c9CacheFull : WeakCache :=
  { dataset := some [c5Sample], session := some ⟨[]⟩ }

theorem C9_select_dv_extra_none_cases_witness :
    get_select_dv (some "/lists/a.txt") c9CacheEmpty
      ⟨fun _ => true, fun _ => []⟩ = none ∧
    get_select_dv (some "/lists/missing.txt") c9CacheFull
      ⟨fun _ => false, fun _ => []⟩ = none :=
  ⟨C9_select_dv_extra_none_cases.1 c9CacheEmpty ⟨fun _ => true, fun _ => []⟩
      (some "/lists/a.txt") rfl,
   C9_select_dv_extra_none_cases.2 c9CacheFull ⟨fun _ => false, fun _ => []⟩
      "/lists/missing.txt" [c5Sample] ⟨[]⟩ rfl rfl rfl⟩
